import Mathlib

/-!
Verification of the metrics-computation core of a SaaS funnel dashboard.

The source (`data_processing.py`) computes funnel, revenue, cohort-retention,
weekly-growth, plan and traffic-source metrics from four tables (Users, Events,
Plans, Sources) using pandas. This file gives a shallow embedding of those
computations over explicit Lean lists and proves/refutes the specification
claims about them.

Modelling conventions:
- A pandas DataFrame becomes a `List` of records; timestamps become `Int`
  days since 1970-01-01 (a Thursday, so day 4 is the first Monday).
- Float arithmetic becomes exact `ℚ` arithmetic.  Non-finite float results
  (NaN/inf, which pandas produces on division by zero) are modelled by
  `Option ℚ` with `none` standing for a non-finite value.
- Python `round(x, 2)` becomes `round2` (round half up at exact ties; no
  claim in scope exercises a .xx5 tie, where IEEE half-to-even differs).
- `groupby` key order (pandas sorts keys ascending) is modelled by an
  insertion sort over deduplicated keys.
-/

attribute [local semireducible] Rat.add Rat.sub Rat.mul Rat.inv

/-- Models Python `round(x, 2)`. -/
def round2 (x : ℚ) : ℚ := (Rat.floor (x * 100 + 1 / 2) : ℚ) / 100

/-- Start (Monday) of the calendar week containing day `d`; models
`Timestamp.to_period('W').start_time` (weeks run Monday..Sunday; day 0,
1970-01-01, is a Thursday whose week starts at day -3). -/
def weekStart (d : Int) : Int := d - (d + 3) % 7

/-- Howard-Hinnant style civil-calendar to epoch-day conversion, used to model
`pandas.to_datetime` and `to_period('M').start_time`. -/
def daysFromCivil (y m d : Int) : Int :=
  let yy := if m ≤ 2 then y - 1 else y
  let era := yy.fdiv 400
  let yoe := yy - era * 400
  let mp := (m + 9) % 12
  let doy := (153 * mp + 2).fdiv 5 + d - 1
  let doe := yoe * 365 + yoe.fdiv 4 - yoe.fdiv 100 + doy
  era * 146097 + doe - 719468

/-- Inverse of `daysFromCivil`: epoch day to (year, month, day). -/
def civilFromDays (z0 : Int) : Int × Int × Int :=
  let z := z0 + 719468
  let era := z.fdiv 146097
  let doe := z - era * 146097
  let yoe := (doe - doe.fdiv 1460 + doe.fdiv 36524 - doe.fdiv 146096).fdiv 365
  let y := yoe + era * 400
  let doy := doe - (365 * yoe + yoe.fdiv 4 - yoe.fdiv 100)
  let mp := (5 * doy + 2).fdiv 153
  let d := doy - (153 * mp + 2).fdiv 5 + 1
  let m := mp + (if mp < 10 then 3 else -9)
  (if m ≤ 2 then y + 1 else y, m, d)

/-- First day of the calendar month containing day `z`; models
`Timestamp.to_period('M').start_time`. -/
def monthStart (z : Int) : Int :=
  let c := civilFromDays z
  daysFromCivil c.1 c.2.1 1

/-- Insertion step of an insertion sort parameterised by a boolean order. -/
def insertBy {α : Type} (le : α → α → Bool) (x : α) : List α → List α
  | [] => [x]
  | a :: t => if le x a then x :: a :: t else a :: insertBy le x t

/-- Insertion sort by a boolean order (structurally recursive, so it
evaluates in the kernel, unlike mergeSort). -/
def sortBy {α : Type} (le : α → α → Bool) (l : List α) : List α :=
  l.foldr (insertBy le) []

def intLe (a b : Int) : Bool := decide (a ≤ b)

/-- Code-point lexicographic order on char lists, matching Python string
comparison (used by pandas when sorting groupby keys). -/
def charListLe : List Char → List Char → Bool
  | [], _ => true
  | _ :: _, [] => false
  | a :: as, b :: bs =>
    if a.toNat < b.toNat then true
    else if b.toNat < a.toNat then false
    else charListLe as bs

def strLe (a b : String) : Bool := charListLe a.toList b.toList

/-- Sorted distinct values of an integer key column, as produced by a pandas
groupby/pivot index. -/
def sortedDedupInt (l : List Int) : List Int := sortBy intLe l.dedup

/-- Sorted distinct values of a string key column. -/
def sortedDedupStr (l : List String) : List String := sortBy strLe l.dedup

-- -----------------------------
-- Data model (§3 of the spec; column types of the four input tables)
-- -----------------------------

structure UserRow where
  user_id : Int
  signup_date : Int
  plan_id : Int
  source_id : Int
deriving DecidableEq

structure EventRow where
  user_id : Int
  event_type : String
  event_date : Int
deriving DecidableEq

structure PlanRow where
  plan_id : Int
  plan_name : String
  price : ℚ
deriving DecidableEq

structure SourceRow where
  source_id : Int
  source_name : String
deriving DecidableEq

-- -----------------------------
-- Funnel engine (`compute_funnel`, data_processing.py lines 50-61)
-- -----------------------------

structure FunnelRow where
  stage : String
  users : Nat
  conversion_from_start_pct : ℚ
  conversion_from_prev_pct : Option ℚ
  drop_off_pct_from_prev : Option ℚ
deriving DecidableEq

/-- `events_df.groupby('event_type')['user_id'].nunique()` at one stage key,
with `.reindex(stages).fillna(0)` semantics (missing stage gives 0). -/
def stageCount (events_df : List EventRow) (s : String) : Nat :=
  ((events_df.filter (fun e => e.event_type == s)).map (fun e => e.user_id)).dedup.length

/-- Pair each element with its predecessor (tail of `withPrev`). -/
def withPrevAux (p : Nat) : List Nat → List (Option Nat × Nat)
  | [] => []
  | c :: cs => (some p, c) :: withPrevAux c cs

/-- Pair each element of a list with its predecessor (`none` for the head),
the access pattern of `Series.pct_change()`. -/
def withPrev : List Nat → List (Option Nat × Nat)
  | [] => []
  | c :: cs => (none, c) :: withPrevAux c cs

/-- One cell of `df['users'].pct_change().fillna(1).apply(lambda x: round(x *
100 if x != 1 else 100, 2))`.  The first row's `pct_change` is NaN, filled to
1, mapped to 100.  A 0/0 transition is NaN, filled to 1, mapped to 100.  A
positive count after a zero count is +inf in pandas (`none` here). -/
def convPrevCell (prev : Option Nat) (curr : Nat) : Option ℚ :=
  match prev with
  | none => some 100
  | some p =>
    if p = 0 then (if curr = 0 then some 100 else none)
    else
      let x : ℚ := ((curr : ℚ) - (p : ℚ)) / (p : ℚ)
      some (if x = 1 then 100 else round2 (x * 100))

/-- Lines 55-60 of `compute_funnel`, computed from the per-stage distinct
counts: the three percentage columns. -/
def funnelFromCounts (stages : List String) (counts : List Nat) : List FunnelRow :=
  let start := counts.headD 0
  let denom : ℚ := if 0 < start then (start : ℚ) else 1
  (stages.zip (withPrev counts)).map (fun sc =>
    let conv := convPrevCell sc.2.1 sc.2.2
    { stage := sc.1
      users := sc.2.2
      conversion_from_start_pct := round2 ((sc.2.2 : ℚ) / denom * 100)
      conversion_from_prev_pct := conv
      drop_off_pct_from_prev := conv.map (fun c => round2 (100 - c)) })

/-- `compute_funnel(events_df, stages)` (default stages are
visit/signup/trial/paid). -/
def compute_funnel (events_df : List EventRow) (stages : List String) : List FunnelRow :=
  funnelFromCounts stages (stages.map (stageCount events_df))

-- -----------------------------
-- Revenue engine (`compute_revenue_metrics`, lines 66-92)
-- -----------------------------

structure RevenueSummary where
  paid_count : Nat
  mrr : ℚ
  arpu : ℚ
  avg_rev_per_paid_user : Option ℚ
  churn_rate_pct_30d : ℚ
deriving DecidableEq

/-- `events_df[events_df['event_type'] == 'paid']`. -/
def paidEvents (events_df : List EventRow) : List EventRow :=
  events_df.filter (fun e => e.event_type == "paid")

/-- `paid_events['user_id'].unique()` (distinct user ids of paid events). -/
def paidUserIds (events_df : List EventRow) : List Int :=
  ((paidEvents events_df).map (fun e => e.user_id)).dedup

/-- `left.merge(plans_df, on='plan_id', how='left')`: one output row per
matching plan row, or a single row with a missing (NaN) plan when none
matches. -/
def leftJoinPlans (us : List UserRow) (plans_df : List PlanRow) :
    List (UserRow × Option PlanRow) :=
  us.flatMap (fun u =>
    match plans_df.filter (fun p => p.plan_id == u.plan_id) with
    | [] => [(u, none)]
    | hits => hits.map (fun p => (u, some p)))

/-- `users_df[users_df['user_id'].isin(paid_users)].merge(plans_df,
on='plan_id', how='left')`. -/
def revenueMerged (users_df : List UserRow) (events_df : List EventRow)
    (plans_df : List PlanRow) : List (UserRow × Option PlanRow) :=
  leftJoinPlans (users_df.filter (fun u => (paidUserIds events_df).contains u.user_id)) plans_df

/-- Distinct users with a paid event dated on/after `as_of_date - 30` days:
`paid_events[paid_events['event_date'] >= last_30]['user_id'].nunique()`.
Note the filter has no upper bound. -/
def recentPaidNunique (events_df : List EventRow) (as_of_date : Int) : Nat :=
  (((paidEvents events_df).filter (fun e => decide (as_of_date - 30 ≤ e.event_date))).map
    (fun e => e.user_id)).dedup.length

/-- `compute_revenue_metrics(users_df, events_df, plans_df, as_of_date)`;
`as_of_date` (default `datetime.utcnow()`) is an explicit parameter here. -/
def compute_revenue_metrics (users_df : List UserRow) (events_df : List EventRow)
    (plans_df : List PlanRow) (as_of_date : Int) : RevenueSummary :=
  let paid_count := (paidUserIds events_df).length
  let merged := revenueMerged users_df events_df plans_df
  let prices := merged.filterMap (fun r => r.2.map (fun p => p.price))
  let mrr : ℚ := prices.sum
  let arpu : ℚ := if 0 < users_df.length then mrr / (users_df.length : ℚ) else 0
  let avg_rev_per_paid : Option ℚ :=
    if merged.length = 0 then some 0
    else if prices.length = 0 then none
    else some (prices.sum / (prices.length : ℚ))
  let recent_paid := recentPaidNunique events_df as_of_date
  let churn_rate : ℚ :=
    if 0 < paid_count then 100 * (1 - (recent_paid : ℚ) / (paid_count : ℚ)) else 0
  { paid_count := paid_count
    mrr := round2 mrr
    arpu := round2 arpu
    avg_rev_per_paid_user := avg_rev_per_paid.map round2
    churn_rate_pct_30d := round2 churn_rate }

/-- Modelled from the spec: "recent_paid_count is the distinct-user count of
paid events in the 30-day window ending at as_of (events after as_of
excluded)".  Comparison definition for claim C4, written from the claim's
words, not from the code. -/
def specRecentPaidCount (events_df : List EventRow) (as_of_date : Int) : Nat :=
  (((paidEvents events_df).filter (fun e =>
      decide (as_of_date - 30 ≤ e.event_date) && decide (e.event_date ≤ as_of_date))).map
    (fun e => e.user_id)).dedup.length

/-- Modelled from the spec: churn with the window-bounded recent count. -/
def specChurnRate (events_df : List EventRow) (as_of_date : Int) : ℚ :=
  let paid_count := (paidUserIds events_df).length
  if 0 < paid_count then
    round2 (100 * (1 - (specRecentPaidCount events_df as_of_date : ℚ) / (paid_count : ℚ)))
  else 0

-- -----------------------------
-- Cohort engine (`compute_cohort_retention`, lines 97-123)
-- -----------------------------

/-- Cohort bucket granularity; the source rejects any string other than
'week'/'month' with a ValueError, which this total enumeration makes
unrepresentable (no claim exercises the error branch). -/
inductive CohortBucket
  | week
  | month
deriving DecidableEq

/-- `signup_date.dt.to_period('W'|'M').start_time`. -/
def cohortOf (bucket : CohortBucket) (d : Int) : Int :=
  match bucket with
  | .week => weekStart d
  | .month => monthStart d

structure CMergedRow where
  user_id : Int
  cohort : Int
  period_number : Int
deriving DecidableEq

/-- `df_events.merge(df_users, on='user_id', how='inner')` with
`period_number = (event_date - signup_date).dt.days // 7` and the user's
cohort attached. -/
def cohortMerged (users_df : List UserRow) (events_df : List EventRow)
    (bucket : CohortBucket) : List CMergedRow :=
  events_df.flatMap (fun e =>
    (users_df.filter (fun u => u.user_id == e.user_id)).map (fun u =>
      { user_id := e.user_id
        cohort := cohortOf bucket u.signup_date
        period_number := (e.event_date - u.signup_date).fdiv 7 }))

/-- Sorted distinct `period_number` values: the pivot's column index. -/
def periodCols (users_df : List UserRow) (events_df : List EventRow)
    (bucket : CohortBucket) : List Int :=
  sortedDedupInt ((cohortMerged users_df events_df bucket).map (fun r => r.period_number))

/-- Sorted distinct cohort values: the pivot's row index. -/
def cohortKeys (users_df : List UserRow) (events_df : List EventRow)
    (bucket : CohortBucket) : List Int :=
  sortedDedupInt ((cohortMerged users_df events_df bucket).map (fun r => r.cohort))

/-- One cell of `cohort_pivot`: `groupby(['cohort','period_number'])
['user_id'].nunique()`, with `.fillna(0)` for absent combinations. -/
def pivotCell (users_df : List UserRow) (events_df : List EventRow)
    (bucket : CohortBucket) (c p : Int) : Nat :=
  (((cohortMerged users_df events_df bucket).filter
      (fun r => r.cohort == c && r.period_number == p)).map (fun r => r.user_id)).dedup.length

/-- The pivot's first column label, `cohort_pivot.iloc[:, 0]`'s column: the
smallest period_number present anywhere in the joined data. -/
def firstPeriod (users_df : List UserRow) (events_df : List EventRow)
    (bucket : CohortBucket) : Int :=
  (periodCols users_df events_df bucket).headD 0

/-- Retention matrix: column labels plus one row per cohort of normalized
percentage cells.  `none` models the non-finite floats pandas produces when a
row is divided by a zero first-column value. -/
structure CohortResult where
  cols : List Int
  rows : List (Int × List (Option ℚ))
deriving DecidableEq

/-- `compute_cohort_retention(users_df, events_df, cohort_by)`: pivot of
distinct-user counts divided row-wise by the first column, times 100,
rounded to 2 decimals; empty merge gives an explicitly empty result. -/
def compute_cohort_retention (users_df : List UserRow) (events_df : List EventRow)
    (bucket : CohortBucket) : CohortResult :=
  let merged := cohortMerged users_df events_df bucket
  if merged = [] then { cols := [], rows := [] }
  else
    let cols := periodCols users_df events_df bucket
    let p0 := firstPeriod users_df events_df bucket
    { cols := cols
      rows := (cohortKeys users_df events_df bucket).map (fun c =>
        let size := pivotCell users_df events_df bucket c p0
        (c, cols.map (fun p =>
          if size = 0 then none
          else some (round2 ((pivotCell users_df events_df bucket c p : ℚ) / (size : ℚ) * 100))))) }

/-- Modelled from the spec: "each cohort's total distinct-user cohort size" —
the number of distinct users of the users table whose cohort equals `c`.
Comparison definition for claim C2, written from the claim's words. -/
def specCohortSize (users_df : List UserRow) (bucket : CohortBucket) (c : Int) : Nat :=
  ((users_df.filter (fun u => cohortOf bucket u.signup_date == c)).map
    (fun u => u.user_id)).dedup.length

-- -----------------------------
-- Growth engine (`compute_weekly_growth`, lines 128-155)
-- -----------------------------

/-- The supported growth metrics.  The source maps the strings signups /
visits / trials / paid / active_users; any other string raises ValueError,
which this total enumeration makes unrepresentable (no claim exercises the
error branch). -/
inductive GrowthMetric
  | signups
  | visits
  | trials
  | paid
  | active_users
deriving DecidableEq

/-- `metric_map.get(metric)`: the event type filtered on, `none` meaning the
any-event-type branch (`active_users`). -/
def metricEventType : GrowthMetric → Option String
  | .signups => some "signup"
  | .visits => some "visit"
  | .trials => some "trial"
  | .paid => some "paid"
  | .active_users => none

structure GrowthRow where
  week_start : Int
  value : Nat
  pct_change : ℚ
deriving DecidableEq

/-- The events considered: matching type (unless `active_users`), dated on or
after `now - weeks` weeks. -/
def filteredGrowthEvents (events_df : List EventRow) (metric : GrowthMetric)
    (weeksN : Nat) (now : Int) : List EventRow :=
  let start := now - 7 * (weeksN : Int)
  match metricEventType metric with
  | none => events_df.filter (fun e => decide (start ≤ e.event_date))
  | some t => events_df.filter (fun e => e.event_type == t && decide (start ≤ e.event_date))

/-- Sorted distinct week starts of the matching events: the index of the
grouped series `events.groupby('week')['user_id'].nunique()`. -/
def observedWeeks (events_df : List EventRow) (metric : GrowthMetric)
    (weeksN : Nat) (now : Int) : List Int :=
  sortedDedupInt ((filteredGrowthEvents events_df metric weeksN now).map
    (fun e => weekStart e.event_date))

/-- The grouped series value at week `w`: distinct users with a matching
event in that week. -/
def weekValue (events_df : List EventRow) (metric : GrowthMetric)
    (weeksN : Nat) (now : Int) (w : Int) : Nat :=
  (((filteredGrowthEvents events_df metric weeksN now).filter
      (fun e => weekStart e.event_date == w)).map (fun e => e.user_id)).dedup.length

/-- Tail of `growthRows`: each later row's pct_change is computed against the
previous observed value (`(curr - prev)/prev`, times 100, rounded).  Observed
values are always ≥ 1, so the division is never by zero. -/
def growthRowsAux (value : Int → Nat) (prev : Nat) : List Int → List GrowthRow
  | [] => []
  | w :: ws =>
    { week_start := w, value := value w
      pct_change := round2 (((value w : ℚ) - (prev : ℚ)) / (prev : ℚ) * 100) }
      :: growthRowsAux value (value w) ws

/-- The observed series with
`ts['pct_change'] = ts['value'].pct_change().fillna(0).apply(lambda x:
round(x * 100, 2))`: the first row's NaN is filled with 0. -/
def growthRows (value : Int → Nat) : List Int → List GrowthRow
  | [] => []
  | w :: ws =>
    { week_start := w, value := value w, pct_change := round2 ((0 : ℚ) * 100) }
      :: growthRowsAux value (value w) ws

/-- `ts['week_start'].min()` of the observed series (head of the sorted
index). -/
def minWeek (events_df : List EventRow) (metric : GrowthMetric)
    (weeksN : Nat) (now : Int) : Int :=
  (observedWeeks events_df metric weeksN now).headD 0

/-- `ts['week_start'].max()` of the observed series (last of the sorted
index). -/
def maxWeek (events_df : List EventRow) (metric : GrowthMetric)
    (weeksN : Nat) (now : Int) : Int :=
  (observedWeeks events_df metric weeksN now).getLastD 0

/-- One row of `ts.set_index('week_start').reindex(idx, fill_value=0)`: the
observed row at index label `w` if one exists, else a row of zeros
(`fill_value=0` fills both `value` and `pct_change`). -/
def reindexRow (obs : List GrowthRow) (w : Int) : GrowthRow :=
  match obs.find? (fun r => r.week_start == w) with
  | some r => r
  | none => { week_start := w, value := 0, pct_change := 0 }

/-- `compute_weekly_growth(users_df, events_df, metric, weeks)`; `now`
(`datetime.utcnow()` in the source) is an explicit parameter.  The users
table is accepted but unused by the source.  Empty observed series returns
the explicitly empty frame; otherwise the series is reindexed onto
`pd.date_range(min, max, freq='7D')` — `(max-min)/7 + 1` labels starting at
the minimum observed week with a 7-day stride. -/
def compute_weekly_growth (_users_df : List UserRow) (events_df : List EventRow)
    (metric : GrowthMetric) (weeksN : Nat) (now : Int) : List GrowthRow :=
  let wks := observedWeeks events_df metric weeksN now
  let obs := growthRows (weekValue events_df metric weeksN now) wks
  if wks.isEmpty then []
  else
    let lo := minWeek events_df metric weeksN now
    let hi := maxWeek events_df metric weeksN now
    let n := (hi - lo).toNat / 7 + 1
    (List.range n).map (fun (k : Nat) => reindexRow obs (lo + 7 * (k : Int)))

-- -----------------------------
-- Plan / source segment engines (`compute_plan_metrics`,
-- `compute_source_metrics`, lines 160-183)
-- -----------------------------

structure PlanMetricsRow where
  plan_name : String
  paid_users : Nat
  mrr : ℚ
  avg_revenue_per_user : Option ℚ
deriving DecidableEq

structure SourceMetricsRow where
  source_name : String
  paid_users : Nat
deriving DecidableEq

/-- `users_df.merge(paid_events[['user_id']], on='user_id', how='inner')`:
one row (with the user's columns) per (user, matching paid event) pair — the
paid events are NOT deduplicated before this join. -/
def planMerged1 (users_df : List UserRow) (events_df : List EventRow) : List UserRow :=
  users_df.flatMap (fun u =>
    ((paidEvents events_df).filter (fun ev => ev.user_id == u.user_id)).map (fun _ => u))

/-- The rows after `merged.merge(plans_df, on='plan_id', how='left')`. -/
def planJoinRows (users_df : List UserRow) (events_df : List EventRow)
    (plans_df : List PlanRow) : List (UserRow × Option PlanRow) :=
  leftJoinPlans (planMerged1 users_df events_df) plans_df

/-- The groupby('plan_name') keys: sorted distinct non-missing plan names
(pandas drops NaN group keys). -/
def planKeys (users_df : List UserRow) (events_df : List EventRow)
    (plans_df : List PlanRow) : List String :=
  sortedDedupStr ((planJoinRows users_df events_df plans_df).filterMap
    (fun r => r.2.map (fun p => p.plan_name)))

/-- The rows of one plan_name group. -/
def planGroup (users_df : List UserRow) (events_df : List EventRow)
    (plans_df : List PlanRow) (name : String) : List (UserRow × Option PlanRow) :=
  (planJoinRows users_df events_df plans_df).filter
    (fun r => (r.2.map (fun p => p.plan_name)) == some name)

/-- `compute_plan_metrics(users_df, events_df, plans_df)`:
per plan_name, paid_users = nunique user_id, mrr = sum of price,
avg_revenue_per_user = mean price (no rounding in the source). -/
def compute_plan_metrics (users_df : List UserRow) (events_df : List EventRow)
    (plans_df : List PlanRow) : List PlanMetricsRow :=
  (planKeys users_df events_df plans_df).map (fun name =>
    let grp := planGroup users_df events_df plans_df name
    let prices := grp.filterMap (fun r => r.2.map (fun p => p.price))
    { plan_name := name
      paid_users := ((grp.map (fun r => r.1.user_id)).dedup).length
      mrr := prices.sum
      avg_revenue_per_user :=
        if prices.length = 0 then none else some (prices.sum / (prices.length : ℚ)) })

/-- `merged.merge(sources_df, on='source_id', how='left')` rows. -/
def sourceJoinRows (users_df : List UserRow) (events_df : List EventRow)
    (sources_df : List SourceRow) : List (UserRow × Option SourceRow) :=
  (planMerged1 users_df events_df).flatMap (fun u =>
    match sources_df.filter (fun s => s.source_id == u.source_id) with
    | [] => [(u, none)]
    | hits => hits.map (fun s => (u, some s)))

/-- `compute_source_metrics(users_df, events_df, sources_df)`. -/
def compute_source_metrics (users_df : List UserRow) (events_df : List EventRow)
    (sources_df : List SourceRow) : List SourceMetricsRow :=
  (sortedDedupStr ((sourceJoinRows users_df events_df sources_df).filterMap
      (fun r => r.2.map (fun s => s.source_name)))).map (fun name =>
    let grp := (sourceJoinRows users_df events_df sources_df).filter
      (fun r => (r.2.map (fun s => s.source_name)) == some name)
    { source_name := name
      paid_users := ((grp.map (fun r => r.1.user_id)).dedup).length })

/-- Modelled from the spec: "`mrr` = sum of price" over the distinct paid
users of a plan-name group — i.e. the plan price taken once per distinct
user.  Comparison definition for claim C5, written from the claim's words. -/
def specPlanMrrPerDistinctUser (users_df : List UserRow) (events_df : List EventRow)
    (plans_df : List PlanRow) (name : String) : ℚ :=
  (((planGroup users_df events_df plans_df name).map (fun r => r.1)).dedup.filterMap
    (fun u => ((plans_df.find? (fun p => p.plan_id == u.plan_id)).map (fun p => p.price)))).sum

/-- `plans_df.find? (plan_id == u.plan_id)`: the plan row a left join would
match for user `u` when plan ids are unique. -/
def userPlan (plans_df : List PlanRow) (u : UserRow) : Option PlanRow :=
  plans_df.find? (fun p => p.plan_id == u.plan_id)

/-- Number of paid-event rows of user `u` (row count, not distinct). -/
def paidCountOf (events_df : List EventRow) (u : UserRow) : Nat :=
  ((paidEvents events_df).filter (fun ev => ev.user_id == u.user_id)).length

-- -----------------------------
-- Dynamic-schema view (for the schema-mismatch claim C8)
-- -----------------------------

/-- An untyped view of an input table: its column names plus rows of
column-name/value pairs, as a CSV parse would produce before any type
checking. -/
structure DynTable where
  schema : List String
  rows : List (List (String × String))
deriving DecidableEq

/-- Dynamic column access `df[c]`: pandas raises `KeyError(c)` — an error
naming only the column — when the column is absent. -/
def dynCol (t : DynTable) (c : String) : Except String (List (Option String)) :=
  if t.schema.contains c then
    Except.ok (t.rows.map (fun r => (r.find? (fun p => p.1 == c)).map (fun p => p.2)))
  else Except.error c

/-- `compute_funnel` over the untyped table: the pandas pipeline
`events_df.groupby('event_type')['user_id'].nunique()` first accesses the
`event_type` column, then `user_id`; a missing column surfaces as the
`KeyError` of that first access.  No schema validation precedes it. -/
def dynComputeFunnel (events_df : DynTable) (stages : List String) :
    Except String (List FunnelRow) :=
  match dynCol events_df "event_type" with
  | Except.error c => Except.error c
  | Except.ok types =>
    match dynCol events_df "user_id" with
    | Except.error c => Except.error c
    | Except.ok uids =>
      let pairs := types.zip uids
      Except.ok (funnelFromCounts stages (stages.map (fun s =>
        ((pairs.filter (fun pr => pr.1 == some s)).map (fun pr => pr.2)).dedup.length)))

-- -----------------------------
-- CSV runner (`run_all_metrics_from_csv`, lines 217-248)
-- -----------------------------

/-- A date cell as held by a freshly-parsed CSV column: a raw string, an
already-parsed timestamp, or NaT (pandas' missing timestamp). -/
inductive DateVal
  | str (s : String)
  | dt (d : Int)
  | naT
deriving DecidableEq

/-- Digit-string to number (`none` if empty or non-digit). -/
def digitsVal? (l : List Char) : Option Nat :=
  if l ≠ [] ∧ l.all (fun c => 48 ≤ c.toNat && c.toNat ≤ 57) then
    some (l.foldl (fun acc c => 10 * acc + (c.toNat - 48)) 0)
  else none

/-- Split a char list on the dash character. -/
def splitOnDash : List Char → List (List Char)
  | [] => [[]]
  | c :: t =>
    let r := splitOnDash t
    if c = '-' then [] :: r
    else
      match r with
      | [] => [[c]]
      | h :: t2 => (c :: h) :: t2

/-- ISO `YYYY-MM-DD` date parsing, the format relevant to the claims; models
the successful path of `pd.to_datetime(x, errors='coerce')` (any other
string coerces to NaT). -/
def parseDate (s : String) : Option Int :=
  match (splitOnDash s.toList).map digitsVal? with
  | [some y, some m, some d] =>
    if 1 ≤ m ∧ m ≤ 12 ∧ 1 ≤ d ∧ d ≤ 31 then
      some (daysFromCivil (y : Int) (m : Int) (d : Int))
    else none
  | _ => none

/-- One cell of `pd.to_datetime(col, errors='coerce')`: parse raw strings
(unparseable becomes NaT), keep parsed timestamps and NaT unchanged. -/
def to_datetime : DateVal → DateVal
  | DateVal.str s =>
    match parseDate s with
    | some d => DateVal.dt d
    | none => DateVal.naT
  | DateVal.dt d => DateVal.dt d
  | DateVal.naT => DateVal.naT

structure RawUserRow where
  user_id : Int
  signup_date : DateVal
  plan_id : Int
  source_id : Int
deriving DecidableEq

structure RawEventRow where
  user_id : Int
  event_type : String
  event_date : DateVal
deriving DecidableEq

/-- The caller's `data_dict`: the four uploaded tables. -/
structure RawSnapshot where
  users : List RawUserRow
  events : List RawEventRow
  plans : List PlanRow
  sources : List SourceRow
deriving DecidableEq

/-- A date cell as an `Int` day.  Cells that are not parsed timestamps (raw
strings or NaT) fall back to 0: engine behaviour on NaT dates is outside
every claim's scope (all claims evaluate the runner on parseable dates). -/
def DateVal.toIntD : DateVal → Int
  | DateVal.dt d => d
  | _ => 0

def typedUser (u : RawUserRow) : UserRow :=
  { user_id := u.user_id, signup_date := u.signup_date.toIntD
    plan_id := u.plan_id, source_id := u.source_id }

def typedEvent (e : RawEventRow) : EventRow :=
  { user_id := e.user_id, event_type := e.event_type
    event_date := e.event_date.toIntD }

structure ResultsBundle where
  funnel : List FunnelRow
  revenue : RevenueSummary
  cohort : CohortResult
  weekly_growth : List GrowthRow
  plan_metrics : List PlanMetricsRow
  source_metrics : List SourceMetricsRow
deriving DecidableEq

/-- `run_all_metrics_from_csv(data_dict)`.  The first component is the state
of the caller's tables AFTER the call: the source reassigns the
`signup_date` / `event_date` columns IN PLACE
(`users['signup_date'] = pd.to_datetime(...)`), so the caller's users and
events tables come back with parsed date columns while plans and sources are
untouched.  `now` stands for `datetime.utcnow()` used by the revenue and
growth engines. -/
def run_all_metrics_from_csv (data_dict : RawSnapshot) (now : Int) :
    RawSnapshot × ResultsBundle :=
  let users := data_dict.users.map (fun u => { u with signup_date := to_datetime u.signup_date })
  let events := data_dict.events.map (fun e => { e with event_date := to_datetime e.event_date })
  let post : RawSnapshot :=
    { users := users, events := events, plans := data_dict.plans, sources := data_dict.sources }
  let tUsers := users.map typedUser
  let tEvents := events.map typedEvent
  (post,
    { funnel := compute_funnel tEvents ["visit", "signup", "trial", "paid"]
      revenue := compute_revenue_metrics tUsers tEvents data_dict.plans now
      cohort := compute_cohort_retention tUsers tEvents CohortBucket.week
      weekly_growth := compute_weekly_growth tUsers tEvents GrowthMetric.signups 12 now
      plan_metrics := compute_plan_metrics tUsers tEvents data_dict.plans
      source_metrics := compute_source_metrics tUsers tEvents data_dict.sources })

/-- `true` iff the cell is an already-parsed timestamp. -/
def DateVal.isParsed : DateVal → Bool
  | DateVal.dt _ => true
  | _ => false

/-- Distinct-user count of all paid events, as a set cardinality — the
independent characterization used to state the amended claim C4. -/
def paidUserCard (events_df : List EventRow) : Nat :=
  ((events_df.filter (fun e => e.event_type == "paid")).map (fun e => e.user_id)).toFinset.card

/-- Distinct-user count of paid events dated on/after `as_of_date - 30` —
with NO upper bound, so paid events after `as_of_date` are included — as a
set cardinality (amended claim C4). -/
def recentPaidUserCard (events_df : List EventRow) (as_of_date : Int) : Nat :=
  ((events_df.filter (fun e =>
      decide (as_of_date - 30 ≤ e.event_date) && (e.event_type == "paid"))).map
    (fun e => e.user_id)).toFinset.card

/-- The price a left join to the plans table matches for user `u` (0 when no
plan row matches; only used under a match hypothesis). -/
def userPlanPrice (plans_df : List PlanRow) (u : UserRow) : ℚ :=
  ((userPlan plans_df u).map (fun p => p.price)).getD 0

-- -----------------------------
-- Helper lemmas
-- -----------------------------

theorem round2_zero : round2 0 = 0 := by decide

theorem round2_hundred : round2 100 = 100 := by decide

theorem dedup_snoc_length {α : Type} [DecidableEq α] {l : List α} {a : α} (h : a ∈ l) :
    ((l ++ [a]).dedup).length = l.dedup.length := by
  rw [← List.card_toFinset, ← List.card_toFinset, List.toFinset_append]
  have h1 : ([a] : List α).toFinset = {a} := by simp
  rw [h1]
  have h2 : ({a} : Finset α) ⊆ l.toFinset := by
    intro x hx
    rw [Finset.mem_singleton] at hx
    subst hx
    exact List.mem_toFinset.mpr h
  rw [Finset.union_eq_left.mpr h2]

theorem mem_dedup_snoc {α : Type} [DecidableEq α] {l : List α} {a : α} (h : a ∈ l) (x : α) :
    x ∈ (l ++ [a]).dedup ↔ x ∈ l.dedup := by
  simp only [List.mem_dedup, List.mem_append, List.mem_singleton]
  constructor
  · rintro (hx | rfl)
    · exact hx
    · exact h
  · exact Or.inl

-- -----------------------------
-- Claim C1
-- -----------------------------

/-- Claim C1 (code bug).  The spec and the column's own name say
`conversion_from_prev_pct[i] = count[i] / count[i-1] * 100` (so the spec's
concrete scenario expects rows visit/signup/trial/paid =
100 / 100 / 0 / 100 with drop-offs 0 / 0 / 100 / 0), but the code computes
`pct_change` — the relative CHANGE `(count[i]-count[i-1])/count[i-1]*100`.
On the spec's own scenario (one user with a visit and a signup) the code
yields prev-conversions 100 / 0 / -100 / 100 and drop-offs 0 / 100 / 200 / 0:
an unchanged count shows 0% "conversion" and 100% "drop-off", and a drop to
zero shows a -100% conversion with a 200% drop-off, contradicting the
intent documented by the column names. -/
theorem C1_funnel_prev_conversion_is_pct_change :
    compute_funnel [⟨1, "visit", 4⟩, ⟨1, "signup", 5⟩] ["visit", "signup", "trial", "paid"] =
      [⟨"visit", 1, 100, some 100, some 0⟩,
       ⟨"signup", 1, 100, some 0, some 100⟩,
       ⟨"trial", 0, 0, some (-100), some 200⟩,
       ⟨"paid", 0, 0, some 100, some 0⟩] := by decide

-- -----------------------------
-- Claim C2: counterexample
-- -----------------------------

/-- Claim C2 counterexample.  Two users sign up in the same week (cohort,
day 4); user 1 has an event in signup week (period 0), user 2 only a week
later (period 1).  The returned matrix is non-empty, but the
pre-normalization count of the pivot's first column for that cohort is 1 —
the distinct users active in the earliest observed period — while the
cohort's total distinct-user size is 2, refuting "that column's
pre-normalization count equals the cohort's total distinct-user size". -/
theorem C2_cohort_first_column_cex :
    (compute_cohort_retention [⟨1, 4, 1, 1⟩, ⟨2, 4, 1, 1⟩]
        [⟨1, "signup", 4⟩, ⟨2, "signup", 12⟩] CohortBucket.week).rows
      = [(4, [some 100, some 100])]
    ∧ pivotCell [⟨1, 4, 1, 1⟩, ⟨2, 4, 1, 1⟩] [⟨1, "signup", 4⟩, ⟨2, "signup", 12⟩]
        CohortBucket.week 4
        (firstPeriod [⟨1, 4, 1, 1⟩, ⟨2, 4, 1, 1⟩] [⟨1, "signup", 4⟩, ⟨2, "signup", 12⟩]
          CohortBucket.week) = 1
    ∧ specCohortSize [⟨1, 4, 1, 1⟩, ⟨2, 4, 1, 1⟩] CohortBucket.week 4 = 2
    ∧ (1 : Nat) ≠ 2 := by decide

-- -----------------------------
-- Claim C3: counterexample
-- -----------------------------

/-- Claim C3 counterexample.  Five distinct users have signup events in the
week starting day 4 and no user signs up the following week; the claim says
the result is `[{week1, 5, 0.0}, {week2, 0, -100.0}]`, but the code's
reindex range ends at the last OBSERVED week, so the returned series is the
single row `{week1, 5, 0.0}`. -/
theorem C3_weekly_growth_cex :
    compute_weekly_growth []
        [⟨1, "signup", 4⟩, ⟨2, "signup", 5⟩, ⟨3, "signup", 6⟩, ⟨4, "signup", 7⟩,
         ⟨5, "signup", 8⟩] GrowthMetric.signups 12 14
      = [⟨4, 5, 0⟩]
    ∧ compute_weekly_growth []
        [⟨1, "signup", 4⟩, ⟨2, "signup", 5⟩, ⟨3, "signup", 6⟩, ⟨4, "signup", 7⟩,
         ⟨5, "signup", 8⟩] GrowthMetric.signups 12 14
      ≠ [⟨4, 5, 0⟩, ⟨11, 0, -100⟩] := by decide

-- -----------------------------
-- Claim C4: counterexample
-- -----------------------------

/-- Claim C4 counterexample.  One user whose only paid event is dated AFTER
`as_of` (day 150 vs as_of = day 100).  The claim's 30-day window ending at
`as_of` contains no paid event, so the claimed churn is 100; the code's
filter `event_date >= as_of - 30` has no upper bound, counts that user as
recent, and returns churn 0. -/
theorem C4_churn_window_cex :
    (compute_revenue_metrics [⟨1, 0, 1, 1⟩] [⟨1, "paid", 150⟩] [⟨1, "Basic", 10⟩]
        100).churn_rate_pct_30d = 0
    ∧ specChurnRate [⟨1, "paid", 150⟩] 100 = 100
    ∧ (compute_revenue_metrics [⟨1, 0, 1, 1⟩] [⟨1, "paid", 150⟩] [⟨1, "Basic", 10⟩]
        100).churn_rate_pct_30d ≠ specChurnRate [⟨1, "paid", 150⟩] 100 := by decide

-- -----------------------------
-- Claim C5: counterexample
-- -----------------------------

/-- Claim C5 counterexample.  One user on plan "Basic" (price 10) with TWO
paid events.  The claim says mrr sums the plan price once per distinct user
(10); the code joins users to the un-deduplicated paid events, so the user
contributes one row per paid event and mrr = 20. -/
theorem C5_plan_mrr_cex :
    compute_plan_metrics [⟨1, 0, 1, 1⟩] [⟨1, "paid", 4⟩, ⟨1, "paid", 11⟩] [⟨1, "Basic", 10⟩]
      = [⟨"Basic", 1, 20, some 10⟩]
    ∧ specPlanMrrPerDistinctUser [⟨1, 0, 1, 1⟩] [⟨1, "paid", 4⟩, ⟨1, "paid", 11⟩]
        [⟨1, "Basic", 10⟩] "Basic" = 10
    ∧ (20 : ℚ) ≠ 10 := by decide

-- -----------------------------
-- Claim C8: counterexample
-- -----------------------------

/-- Claim C8 counterexample.  An events table missing the `event_type`
column: `compute_funnel` fails with the pandas `KeyError('event_type')` of
its first column access — an error whose payload is the bare column name,
which does not name the table (neither "events" nor "Events" occurs in
it), refuting "an invalid-input error that names the missing column and
table". -/
theorem C8_missing_column_cex :
    dynComputeFunnel ⟨["user_id", "event_date"], []⟩ ["visit", "signup", "trial", "paid"]
      = Except.error "event_type"
    ∧ ¬ ("events".toList <:+: "event_type".toList)
    ∧ ¬ ("Events".toList <:+: "event_type".toList) :=
  ⟨rfl, by decide, by decide⟩

-- -----------------------------
-- Claim C9: counterexample
-- -----------------------------

/-- Claim C9 counterexample.  A snapshot whose date columns hold raw CSV
strings: after `run_all_metrics_from_csv` the caller's users/events tables
have been reassigned in place with parsed datetime columns, so the
post-call state differs from the supplied snapshot, refuting "leaves every
input table exactly as supplied". -/
theorem C9_runner_mutation_cex :
    (run_all_metrics_from_csv
        ⟨[⟨1, DateVal.str "2025-01-01", 1, 1⟩],
         [⟨1, "visit", DateVal.str "2025-01-01"⟩],
         [⟨1, "Basic", 10⟩], [⟨1, "ads"⟩]⟩ 20200).1
      ≠ ⟨[⟨1, DateVal.str "2025-01-01", 1, 1⟩],
         [⟨1, "visit", DateVal.str "2025-01-01"⟩],
         [⟨1, "Basic", 10⟩], [⟨1, "ads"⟩]⟩ := by decide

-- -----------------------------
-- Claim C7
-- -----------------------------

/-- Claim C7 (confirmed).  An events table with no rows never raises:
cohort retention returns the explicitly empty matrix, weekly growth returns
the explicitly empty series, and the revenue summary is
{paid_count 0, mrr 0, arpu 0, avg_rev_per_paid_user 0, churn 0}. -/
theorem C7_empty_events_defaults (users_df : List UserRow) (plans_df : List PlanRow)
    (as_of now : Int) (bucket : CohortBucket) (metric : GrowthMetric) (weeksN : Nat) :
    compute_cohort_retention users_df [] bucket = ⟨[], []⟩
    ∧ compute_weekly_growth users_df [] metric weeksN now = []
    ∧ compute_revenue_metrics users_df [] plans_df as_of = ⟨0, 0, 0, some 0, 0⟩ := by
  refine ⟨?_, ?_, ?_⟩
  · simp [compute_cohort_retention, cohortMerged]
  · cases metric <;>
      simp [compute_weekly_growth, observedWeeks, filteredGrowthEvents, metricEventType,
        sortedDedupInt, sortBy]
  · have hfilter : users_df.filter (fun u => (paidUserIds []).contains u.user_id) = [] := by
      simp [paidUserIds, paidEvents]
    simp [compute_revenue_metrics, revenueMerged, hfilter, leftJoinPlans, paidUserIds,
      paidEvents, recentPaidNunique, round2_zero, zero_div]

-- -----------------------------
-- Claim C8: amended theorem and witness
-- -----------------------------

/-- Claim C8 amended.  No engine validates its input schema eagerly; a
missing required column surfaces at the point of its first use as a
key-lookup error whose payload names only the missing column, not the
table.  For `compute_funnel`, an events table without `event_type` fails
with exactly `KeyError('event_type')`. -/
theorem C8_missing_column_amended (t : DynTable) (stages : List String)
    (h : "event_type" ∉ t.schema) :
    dynComputeFunnel t stages = Except.error "event_type" := by
  have hc : t.schema.contains "event_type" = false := by simp [h]
  have h1 : dynCol t "event_type" = Except.error "event_type" := by
    simp [dynCol, hc, h]
  simp [dynComputeFunnel, h1]

/-- Witness for C8: the amended theorem applied to a concrete events table
whose schema lacks `event_type`. -/
theorem C8_missing_column_witness :
    ("event_type" ∉ (["user_id", "event_date"] : List String))
    ∧ dynComputeFunnel ⟨["user_id", "event_date"], []⟩ ["visit"]
        = Except.error "event_type" :=
  ⟨by decide, C8_missing_column_amended ⟨["user_id", "event_date"], []⟩ ["visit"] (by decide)⟩

-- -----------------------------
-- Claim C9: amended theorem and witness
-- -----------------------------

/-- Claim C9 amended.  The six engines are pure functions of their
arguments, but `run_all_metrics_from_csv` reassigns the caller's
`signup_date` and `event_date` columns in place with
`pd.to_datetime(..., errors='coerce')`: after the call the caller's users
and events tables hold the parsed columns (plans and sources are left
untouched), and the tables are left exactly as supplied only when every
date cell is already a parsed timestamp. -/
theorem C9_runner_inplace_date_parse (d : RawSnapshot) (now : Int) :
    (run_all_metrics_from_csv d now).1
      = { users := d.users.map (fun u => { u with signup_date := to_datetime u.signup_date })
          events := d.events.map (fun e => { e with event_date := to_datetime e.event_date })
          plans := d.plans
          sources := d.sources }
    ∧ ((∀ u ∈ d.users, u.signup_date.isParsed = true) →
       (∀ e ∈ d.events, e.event_date.isParsed = true) →
       (run_all_metrics_from_csv d now).1 = d) := by
  constructor
  · rfl
  · intro hu he
    have h1 : d.users.map (fun u => { u with signup_date := to_datetime u.signup_date })
        = d.users := by
      have hptw : ∀ u ∈ d.users,
          ({ u with signup_date := to_datetime u.signup_date } : RawUserRow) = id u := by
        intro u hmem
        have := hu u hmem
        cases u with
        | mk uid sd pid sid =>
          cases sd with
          | str s => simp [DateVal.isParsed] at this
          | dt x => rfl
          | naT => simp [DateVal.isParsed] at this
      rw [List.map_congr_left hptw, List.map_id]
    have h2 : d.events.map (fun e => { e with event_date := to_datetime e.event_date })
        = d.events := by
      have hptw : ∀ e ∈ d.events,
          ({ e with event_date := to_datetime e.event_date } : RawEventRow) = id e := by
        intro e hmem
        have := he e hmem
        cases e with
        | mk uid et ed =>
          cases ed with
          | str s => simp [DateVal.isParsed] at this
          | dt x => rfl
          | naT => simp [DateVal.isParsed] at this
      rw [List.map_congr_left hptw, List.map_id]
    show ({ users := _, events := _, plans := d.plans, sources := d.sources } : RawSnapshot) = d
    rw [h1, h2]

/-- Witness for C9: on a snapshot whose date cells are already parsed
timestamps, the runner leaves the caller's tables exactly as supplied. -/
theorem C9_runner_state_witness :
    (∀ u ∈ ([⟨1, DateVal.dt 20089, 1, 1⟩] : List RawUserRow), u.signup_date.isParsed = true)
    ∧ (run_all_metrics_from_csv
          ⟨[⟨1, DateVal.dt 20089, 1, 1⟩], [⟨1, "visit", DateVal.dt 20089⟩],
           [⟨1, "Basic", 10⟩], [⟨1, "ads"⟩]⟩ 20200).1
        = ⟨[⟨1, DateVal.dt 20089, 1, 1⟩], [⟨1, "visit", DateVal.dt 20089⟩],
           [⟨1, "Basic", 10⟩], [⟨1, "ads"⟩]⟩ :=
  ⟨by decide,
   (C9_runner_inplace_date_parse
      ⟨[⟨1, DateVal.dt 20089, 1, 1⟩], [⟨1, "visit", DateVal.dt 20089⟩],
       [⟨1, "Basic", 10⟩], [⟨1, "ads"⟩]⟩ 20200).2 (by decide) (by decide)⟩

-- -----------------------------
-- Claim C4: amended theorem
-- -----------------------------

/-- Claim C4 amended.  `churn_rate_pct_30d` equals
`round2 (100 * (1 - recent/paid))` with `recent` the distinct-user count of
paid events dated on/after `as_of - 30` with NO upper bound (paid events
after `as_of` are counted as recent), and 0 when the paid count is 0. -/
theorem C4_churn_formula_amended (users_df : List UserRow) (events_df : List EventRow)
    (plans_df : List PlanRow) (as_of : Int) :
    (compute_revenue_metrics users_df events_df plans_df as_of).churn_rate_pct_30d =
      if paidUserCard events_df = 0 then 0
      else round2 (100 * (1 - (recentPaidUserCard events_df as_of : ℚ)
        / (paidUserCard events_df : ℚ))) := by
  have hpc : paidUserCard events_df = (paidUserIds events_df).length := by
    rw [paidUserCard, List.card_toFinset]
    rfl
  have hrc : recentPaidUserCard events_df as_of = recentPaidNunique events_df as_of := by
    rw [recentPaidUserCard, List.card_toFinset, recentPaidNunique, paidEvents,
      List.filter_filter]
  rw [hpc, hrc]
  simp only [compute_revenue_metrics]
  rcases Nat.eq_zero_or_pos (paidUserIds events_df).length with hz | hz
  · rw [hz]
    simp [round2_zero]
  · rw [if_pos hz, if_neg (Nat.pos_iff_ne_zero.mp hz)]

-- -----------------------------
-- Claim C10
-- -----------------------------

/-- Claim C10 (confirmed).  Appending a copy of an existing "paid" event row
leaves the whole RevenueSummary unchanged: every aggregate goes through the
deduplicated paid-user set (`unique()` / `nunique()` / `isin`), which is
unchanged by the duplicate row. -/
theorem C10_revenue_duplicate_paid_invariant (users_df : List UserRow)
    (events_df : List EventRow) (plans_df : List PlanRow) (as_of : Int)
    (e : EventRow) (he : e ∈ events_df) (ht : e.event_type = "paid") :
    compute_revenue_metrics users_df (events_df ++ [e]) plans_df as_of
      = compute_revenue_metrics users_df events_df plans_df as_of := by
  have hpe : paidEvents (events_df ++ [e]) = paidEvents events_df ++ [e] := by
    simp [paidEvents, List.filter_append, ht]
  have hemem : e ∈ paidEvents events_df := by
    simp [paidEvents, List.mem_filter, he, ht]
  have huid : e.user_id ∈ (paidEvents events_df).map (fun ev => ev.user_id) :=
    List.mem_map_of_mem _ hemem
  have hids_mem : ∀ x, x ∈ paidUserIds (events_df ++ [e]) ↔ x ∈ paidUserIds events_df := by
    intro x
    rw [paidUserIds, paidUserIds, hpe, List.map_append]
    simpa using mem_dedup_snoc huid x
  have hlen : (paidUserIds (events_df ++ [e])).length = (paidUserIds events_df).length := by
    rw [paidUserIds, paidUserIds, hpe, List.map_append]
    simpa using dedup_snoc_length huid
  have hfilter : users_df.filter (fun u => (paidUserIds (events_df ++ [e])).contains u.user_id)
      = users_df.filter (fun u => (paidUserIds events_df).contains u.user_id) := by
    apply List.filter_congr
    intro u _
    by_cases hm : u.user_id ∈ paidUserIds events_df
    · have hm2 : u.user_id ∈ paidUserIds (events_df ++ [e]) := (hids_mem u.user_id).mpr hm
      simp [hm, hm2]
    · have hm2 : u.user_id ∉ paidUserIds (events_df ++ [e]) :=
        fun hx => hm ((hids_mem u.user_id).mp hx)
      simp [hm, hm2]
  have hrecent : recentPaidNunique (events_df ++ [e]) as_of
      = recentPaidNunique events_df as_of := by
    rw [recentPaidNunique, recentPaidNunique, hpe, List.filter_append]
    by_cases hd : as_of - 30 ≤ e.event_date
    · have h1 : List.filter (fun ev => decide (as_of - 30 ≤ ev.event_date)) [e] = [e] := by
        simp only [List.filter_cons, List.filter_nil]
        rw [if_pos (decide_eq_true hd)]
      rw [h1, List.map_append]
      have hudm : e.user_id ∈
          ((paidEvents events_df).filter
            (fun ev => decide (as_of - 30 ≤ ev.event_date))).map (fun ev => ev.user_id) :=
        List.mem_map_of_mem _ (List.mem_filter.mpr ⟨hemem, decide_eq_true hd⟩)
      simpa using dedup_snoc_length hudm
    · have h1 : List.filter (fun ev => decide (as_of - 30 ≤ ev.event_date)) [e] = [] := by
        simp only [List.filter_cons, List.filter_nil]
        rw [if_neg (fun hcon => hd (of_decide_eq_true hcon))]
      rw [h1, List.append_nil]
  simp only [compute_revenue_metrics, revenueMerged]
  rw [hfilter, hlen, hrecent]

/-- Witness for C10: the invariance theorem applied at a concrete snapshot
with one duplicated paid event. -/
theorem C10_revenue_duplicate_paid_witness :
    (⟨1, "paid", 50⟩ : EventRow) ∈ ([⟨1, "paid", 50⟩] : List EventRow)
    ∧ (⟨1, "paid", 50⟩ : EventRow).event_type = "paid"
    ∧ compute_revenue_metrics [⟨1, 0, 1, 1⟩] ([⟨1, "paid", 50⟩] ++ [⟨1, "paid", 50⟩])
        [⟨1, "Basic", 10⟩] 60
      = compute_revenue_metrics [⟨1, 0, 1, 1⟩] [⟨1, "paid", 50⟩] [⟨1, "Basic", 10⟩] 60 :=
  ⟨by decide, rfl,
   C10_revenue_duplicate_paid_invariant [⟨1, 0, 1, 1⟩] [⟨1, "paid", 50⟩] [⟨1, "Basic", 10⟩] 60
     ⟨1, "paid", 50⟩ (by decide) rfl⟩

theorem mem_insertBy {α : Type} (le : α → α → Bool) (x : α) (l : List α) (y : α) :
    y ∈ insertBy le x l ↔ y = x ∨ y ∈ l := by
  induction l with
  | nil => simp [insertBy]
  | cons a t ih =>
    rw [insertBy]
    by_cases hle : le x a = true
    · rw [if_pos hle]
      simp [List.mem_cons]
    · rw [if_neg hle]
      simp only [List.mem_cons, ih]
      tauto

theorem mem_sortBy {α : Type} (le : α → α → Bool) (l : List α) (y : α) :
    y ∈ sortBy le l ↔ y ∈ l := by
  induction l with
  | nil => simp [sortBy]
  | cons a t ih =>
    have h0 : sortBy le (a :: t) = insertBy le a (sortBy le t) := rfl
    rw [h0, mem_insertBy]
    simp only [List.mem_cons, ih]

theorem mem_sortedDedupInt (l : List Int) (y : Int) : y ∈ sortedDedupInt l ↔ y ∈ l := by
  rw [sortedDedupInt, mem_sortBy, List.mem_dedup]

theorem growthRowsAux_map_week (value : Int → Nat) (p : Nat) (l : List Int) :
    (growthRowsAux value p l).map (fun r => r.week_start) = l := by
  induction l generalizing p with
  | nil => rfl
  | cons w ws ih => simp [growthRowsAux, ih]

theorem growthRows_map_week (value : Int → Nat) (l : List Int) :
    (growthRows value l).map (fun r => r.week_start) = l := by
  cases l with
  | nil => rfl
  | cons w ws => simp [growthRows, growthRowsAux_map_week]

theorem reindexRow_week (obs : List GrowthRow) (w : Int) :
    (reindexRow obs w).week_start = w := by
  rw [reindexRow]
  cases hf : obs.find? (fun r => r.week_start == w) with
  | none => rfl
  | some r => simpa using List.find?_some hf

theorem reindexRow_of_not_obs (obs : List GrowthRow) (w : Int)
    (h : w ∉ obs.map (fun r => r.week_start)) :
    reindexRow obs w = ⟨w, 0, 0⟩ := by
  rw [reindexRow]
  cases hf : obs.find? (fun r => r.week_start == w) with
  | none => rfl
  | some r =>
    exfalso
    have hm := List.mem_of_find?_eq_some hf
    have hw : r.week_start = w := by simpa using List.find?_some hf
    exact h (hw ▸ List.mem_map_of_mem _ hm)

-- -----------------------------
-- Claim C3: amended theorem and witness
-- -----------------------------

/-- Claim C3 amended.  `pct_change` is computed on the observed (pre-fill)
series; the weeks inserted by the reindex carry value 0 AND pct_change 0
(not -100), because `reindex(..., fill_value=0)` fills both columns; and a
trailing week with zero matching events is absent entirely (the reindex
range ends at the last observed week), so the claim's scenario yields the
single row [{week1, 5, 0.0}] — see the counterexample theorem. -/
theorem C3_weekly_growth_fill_amended (users_df : List UserRow) (events_df : List EventRow)
    (metric : GrowthMetric) (weeksN : Nat) (now : Int) (r : GrowthRow)
    (hr : r ∈ compute_weekly_growth users_df events_df metric weeksN now)
    (hnw : r.week_start ∉ observedWeeks events_df metric weeksN now) :
    r.value = 0 ∧ r.pct_change = 0 := by
  simp only [compute_weekly_growth] at hr
  by_cases hempty : (observedWeeks events_df metric weeksN now).isEmpty = true
  · rw [if_pos hempty] at hr
    cases hr
  · rw [if_neg hempty] at hr
    obtain ⟨k, _, hfk⟩ := List.mem_map.mp hr
    rw [← hfk, reindexRow_week] at hnw
    have hnotin : (minWeek events_df metric weeksN now + 7 * (k : Int)) ∉
        (growthRows (weekValue events_df metric weeksN now)
          (observedWeeks events_df metric weeksN now)).map (fun row => row.week_start) := by
      rw [growthRows_map_week]
      exact hnw
    rw [reindexRow_of_not_obs _ _ hnotin] at hfk
    rw [← hfk]
    exact ⟨rfl, rfl⟩

/-- Witness for C3: in a series observed in the weeks of day 4 and day 18
(one user each), the filled gap week 11 carries value 0 and pct_change 0. -/
theorem C3_weekly_growth_fill_witness :
    (⟨11, 0, 0⟩ : GrowthRow) ∈ compute_weekly_growth []
        [⟨1, "signup", 4⟩, ⟨2, "signup", 18⟩] GrowthMetric.signups 12 20
    ∧ (11 : Int) ∉ observedWeeks [⟨1, "signup", 4⟩, ⟨2, "signup", 18⟩]
        GrowthMetric.signups 12 20
    ∧ (⟨11, 0, 0⟩ : GrowthRow).value = 0 ∧ (⟨11, 0, 0⟩ : GrowthRow).pct_change = 0 :=
  ⟨by decide, by decide,
   C3_weekly_growth_fill_amended [] [⟨1, "signup", 4⟩, ⟨2, "signup", 18⟩]
     GrowthMetric.signups 12 20 ⟨11, 0, 0⟩ (by decide) (by decide)⟩

-- -----------------------------
-- Claim C2: amended theorem and witness
-- -----------------------------

/-- Claim C2 amended.  Column 0 of the retention matrix is the EARLIEST
period_number observed anywhere in the joined data (not necessarily period
0), and its pre-normalization count for a row is the number of distinct
users of that cohort active in that earliest period — which can be smaller
than the cohort's total distinct-user size (see the counterexample).  That
count is the row's normalization denominator, so every row whose column-0
count is nonzero has exactly 100.00 in column 0 (a row with a zero
column-0 count is divided by zero instead and holds no 100). -/
theorem C2_cohort_first_column_amended (users_df : List UserRow) (events_df : List EventRow)
    (bucket : CohortBucket) (pr : Int × List (Option ℚ))
    (hrow : pr ∈ (compute_cohort_retention users_df events_df bucket).rows)
    (hpos : pivotCell users_df events_df bucket pr.1
      (firstPeriod users_df events_df bucket) ≠ 0) :
    pr.2.headD none = some 100 := by
  by_cases hm : cohortMerged users_df events_df bucket = []
  · simp [compute_cohort_retention, hm] at hrow
  · simp only [compute_cohort_retention] at hrow
    rw [if_neg hm] at hrow
    obtain ⟨c, hc, heq⟩ := List.mem_map.mp hrow
    have hpr1 : pr.1 = c := by rw [← heq]
    obtain ⟨r0, hr0⟩ := List.exists_mem_of_ne_nil _ hm
    have hper : r0.period_number ∈ periodCols users_df events_df bucket := by
      rw [periodCols, mem_sortedDedupInt]
      exact List.mem_map_of_mem _ hr0
    cases hpc : periodCols users_df events_df bucket with
    | nil =>
      rw [hpc] at hper
      cases hper
    | cons p0 rest =>
      have hfp : firstPeriod users_df events_df bucket = p0 := by
        rw [firstPeriod, hpc]
        rfl
      rw [hpr1, hfp] at hpos
      rw [← heq]
      simp only [hpc, List.map_cons, List.headD_cons]
      rw [hfp, if_neg hpos]
      have hq : ((pivotCell users_df events_df bucket c p0 : ℚ)) ≠ 0 :=
        Nat.cast_ne_zero.mpr hpos
      rw [div_self hq, one_mul, round2_hundred]

/-- Witness for C2: the cohort of day 4 has a nonzero count in the pivot's
first column, so its normalized column-0 value is 100. -/
theorem C2_cohort_first_column_witness :
    ((4, [some 100, some 100]) : Int × List (Option ℚ)) ∈
      (compute_cohort_retention [⟨1, 4, 1, 1⟩, ⟨2, 4, 1, 1⟩]
        [⟨1, "signup", 4⟩, ⟨2, "signup", 12⟩] CohortBucket.week).rows
    ∧ pivotCell [⟨1, 4, 1, 1⟩, ⟨2, 4, 1, 1⟩] [⟨1, "signup", 4⟩, ⟨2, "signup", 12⟩]
        CohortBucket.week 4
        (firstPeriod [⟨1, 4, 1, 1⟩, ⟨2, 4, 1, 1⟩] [⟨1, "signup", 4⟩, ⟨2, "signup", 12⟩]
          CohortBucket.week) ≠ 0
    ∧ ([some 100, some 100] : List (Option ℚ)).headD none = some 100 :=
  ⟨by decide, by decide,
   C2_cohort_first_column_amended [⟨1, 4, 1, 1⟩, ⟨2, 4, 1, 1⟩]
     [⟨1, "signup", 4⟩, ⟨2, "signup", 12⟩] CohortBucket.week (4, [some 100, some 100])
     (by decide) (by decide)⟩

theorem insertBy_sorted_int (x : Int) (l : List Int) (hl : l.Sorted (· ≤ ·)) :
    (insertBy intLe x l).Sorted (· ≤ ·) := by
  induction l with
  | nil => simp [insertBy]
  | cons a t ih =>
    rw [insertBy]
    by_cases hle : intLe x a = true
    · rw [if_pos hle]
      have hxa : x ≤ a := of_decide_eq_true hle
      rw [List.sorted_cons]
      refine ⟨?_, hl⟩
      intro b hb
      rcases List.mem_cons.mp hb with rfl | hbt
      · exact hxa
      · exact le_trans hxa ((List.sorted_cons.mp hl).1 b hbt)
    · rw [if_neg hle]
      have hax : a ≤ x :=
        le_of_lt (lt_of_not_le (fun hcon => hle (decide_eq_true hcon)))
      obtain ⟨hall, htail⟩ := List.sorted_cons.mp hl
      rw [List.sorted_cons]
      refine ⟨?_, ih htail⟩
      intro b hb
      rcases (mem_insertBy intLe x t b).mp hb with rfl | hbt
      · exact hax
      · exact hall b hbt

theorem sortBy_sorted_int (l : List Int) : (sortBy intLe l).Sorted (· ≤ ·) := by
  induction l with
  | nil => simp [sortBy]
  | cons a t ih => exact insertBy_sorted_int a (sortBy intLe t) ih

theorem sorted_sortedDedupInt (l : List Int) : (sortedDedupInt l).Sorted (· ≤ ·) :=
  sortBy_sorted_int l.dedup

theorem sorted_headD_le {l : List Int} (hs : l.Sorted (· ≤ ·)) {x : Int} (hx : x ∈ l) :
    l.headD 0 ≤ x := by
  cases l with
  | nil => cases hx
  | cons a t =>
    rcases List.mem_cons.mp hx with rfl | hxt
    · exact le_refl x
    · exact (List.sorted_cons.mp hs).1 x hxt

theorem getLastD_cons_eq (a d : Int) (t : List Int) : (a :: t).getLastD d = t.getLastD a := by
  cases t <;> simp [List.getLastD]

theorem getLastD_mem_or (l : List Int) (d : Int) : l.getLastD d = d ∨ l.getLastD d ∈ l := by
  induction l generalizing d with
  | nil => exact Or.inl rfl
  | cons a t ih =>
    rw [getLastD_cons_eq]
    rcases ih a with h | h
    · right
      rw [h]
      exact List.mem_cons_self a t
    · right
      exact List.mem_cons_of_mem a h

theorem sorted_le_getLastD (l : List Int) (d : Int) (hs : l.Sorted (· ≤ ·)) :
    ∀ x ∈ l, x ≤ l.getLastD d := by
  induction l generalizing d with
  | nil => intro x hx; cases hx
  | cons a t ih =>
    intro x hx
    rw [getLastD_cons_eq]
    rcases List.mem_cons.mp hx with rfl | hxt
    · rcases getLastD_mem_or t x with h | h
      · rw [h]
      · exact (List.sorted_cons.mp hs).1 _ h
    · exact ih a (List.sorted_cons.mp hs).2 x hxt

theorem weekStart_add_three_mod (d : Int) : (weekStart d + 3) % 7 = 0 := by
  rw [weekStart]
  omega

theorem weekStart_fixed_mod {w : Int} (h : weekStart w = w) : (w + 3) % 7 = 0 := by
  rw [weekStart] at h
  omega

theorem observed_week_aligned (events_df : List EventRow) (metric : GrowthMetric)
    (weeksN : Nat) (now : Int) (w : Int)
    (hw : w ∈ observedWeeks events_df metric weeksN now) : (w + 3) % 7 = 0 := by
  rw [observedWeeks, mem_sortedDedupInt] at hw
  obtain ⟨e, _, rfl⟩ := List.mem_map.mp hw
  exact weekStart_add_three_mod _

-- -----------------------------
-- Claim C6
-- -----------------------------

/-- Claim C6 (confirmed).  For a non-empty observed series (the claim's
"non-empty input", with week starts calendar-aligned by construction), the
returned WeeklyGrowthSeries has exactly `(max_week - min_week)/7 + 1` rows,
its week_start values are duplicate-free, min/max really bound every
observed week, every calendar-aligned week between min and max inclusive
appears as a row, and a row for a week with no observed events carries
value 0. -/
theorem C6_weekly_growth_shape (users_df : List UserRow) (events_df : List EventRow)
    (metric : GrowthMetric) (weeksN : Nat) (now : Int)
    (hne : observedWeeks events_df metric weeksN now ≠ []) :
    (compute_weekly_growth users_df events_df metric weeksN now).length
      = (maxWeek events_df metric weeksN now
          - minWeek events_df metric weeksN now).toNat / 7 + 1
    ∧ ((compute_weekly_growth users_df events_df metric weeksN now).map
        (fun r => r.week_start)).Nodup
    ∧ (∀ x ∈ observedWeeks events_df metric weeksN now,
        minWeek events_df metric weeksN now ≤ x
          ∧ x ≤ maxWeek events_df metric weeksN now)
    ∧ (∀ w : Int, minWeek events_df metric weeksN now ≤ w →
        w ≤ maxWeek events_df metric weeksN now → weekStart w = w →
        ∃ r ∈ compute_weekly_growth users_df events_df metric weeksN now,
          r.week_start = w)
    ∧ (∀ r ∈ compute_weekly_growth users_df events_df metric weeksN now,
        r.week_start ∉ observedWeeks events_df metric weeksN now → r.value = 0) := by
  have hs : (observedWeeks events_df metric weeksN now).Sorted (· ≤ ·) := by
    rw [observedWeeks]
    exact sorted_sortedDedupInt _
  have hempty_false : ¬ ((observedWeeks events_df metric weeksN now).isEmpty = true) := by
    intro hcon
    exact hne (List.isEmpty_iff.mp hcon)
  have hout : compute_weekly_growth users_df events_df metric weeksN now
      = (List.range ((maxWeek events_df metric weeksN now
            - minWeek events_df metric weeksN now).toNat / 7 + 1)).map
          (fun (k : Nat) => reindexRow
            (growthRows (weekValue events_df metric weeksN now)
              (observedWeeks events_df metric weeksN now))
            (minWeek events_df metric weeksN now + 7 * (k : Int))) := by
    simp only [compute_weekly_growth]
    rw [if_neg hempty_false]
  have hminmax : ∀ x ∈ observedWeeks events_df metric weeksN now,
      minWeek events_df metric weeksN now ≤ x
        ∧ x ≤ maxWeek events_df metric weeksN now := by
    intro x hx
    exact ⟨sorted_headD_le hs hx, sorted_le_getLastD _ 0 hs x hx⟩
  have hlo_mem : minWeek events_df metric weeksN now
      ∈ observedWeeks events_df metric weeksN now := by
    rw [minWeek]
    cases hwk : observedWeeks events_df metric weeksN now with
    | nil => exact absurd hwk hne
    | cons w0 t =>
      simp only [List.headD_cons]
      exact List.mem_cons_self w0 t
  have hlo_al : (minWeek events_df metric weeksN now + 3) % 7 = 0 :=
    observed_week_aligned events_df metric weeksN now _ hlo_mem
  refine ⟨?_, ?_, hminmax, ?_, ?_⟩
  · rw [hout, List.length_map, List.length_range]
  · rw [hout, List.map_map]
    have hptw : ∀ k ∈ List.range ((maxWeek events_df metric weeksN now
          - minWeek events_df metric weeksN now).toNat / 7 + 1),
        ((fun r => r.week_start) ∘ (fun k : Nat => reindexRow
            (growthRows (weekValue events_df metric weeksN now)
              (observedWeeks events_df metric weeksN now))
            (minWeek events_df metric weeksN now + 7 * (k : Int)))) k
          = minWeek events_df metric weeksN now + 7 * (k : Int) := by
      intro k _
      exact reindexRow_week _ _
    rw [List.map_congr_left hptw]
    refine (List.nodup_range _).map ?_
    intro a b hab
    dsimp only at hab
    omega
  · intro w h1 h2 h3
    have hw_al : (w + 3) % 7 = 0 := weekStart_fixed_mod h3
    have hk_eq : minWeek events_df metric weeksN now
        + 7 * (((w - minWeek events_df metric weeksN now).toNat / 7 : Nat) : Int) = w := by
      omega
    have hk_lt : (w - minWeek events_df metric weeksN now).toNat / 7
        < (maxWeek events_df metric weeksN now
            - minWeek events_df metric weeksN now).toNat / 7 + 1 := by
      omega
    refine ⟨reindexRow
        (growthRows (weekValue events_df metric weeksN now)
          (observedWeeks events_df metric weeksN now))
        (minWeek events_df metric weeksN now
          + 7 * (((w - minWeek events_df metric weeksN now).toNat / 7 : Nat) : Int)), ?_, ?_⟩
    · rw [hout]
      exact List.mem_map_of_mem _ (List.mem_range.mpr hk_lt)
    · rw [reindexRow_week, hk_eq]
  · intro r hr hnw
    rw [hout] at hr
    obtain ⟨k, _, hfk⟩ := List.mem_map.mp hr
    rw [← hfk, reindexRow_week] at hnw
    have hnotin : (minWeek events_df metric weeksN now + 7 * (k : Int)) ∉
        (growthRows (weekValue events_df metric weeksN now)
          (observedWeeks events_df metric weeksN now)).map (fun row => row.week_start) := by
      rw [growthRows_map_week]
      exact hnw
    rw [reindexRow_of_not_obs _ _ hnotin] at hfk
    rw [← hfk]

/-- Witness for C6: the shape theorem applied to a concrete series observed
in the weeks of day 4 and day 18 (3 rows, no duplicates, gap week filled
with 0). -/
theorem C6_weekly_growth_shape_witness :
    observedWeeks [⟨1, "signup", 4⟩, ⟨2, "signup", 18⟩] GrowthMetric.signups 12 20 ≠ []
    ∧ ((compute_weekly_growth [] [⟨1, "signup", 4⟩, ⟨2, "signup", 18⟩]
          GrowthMetric.signups 12 20).length
        = (maxWeek [⟨1, "signup", 4⟩, ⟨2, "signup", 18⟩] GrowthMetric.signups 12 20
            - minWeek [⟨1, "signup", 4⟩, ⟨2, "signup", 18⟩]
                GrowthMetric.signups 12 20).toNat / 7 + 1
      ∧ ((compute_weekly_growth [] [⟨1, "signup", 4⟩, ⟨2, "signup", 18⟩]
            GrowthMetric.signups 12 20).map (fun r => r.week_start)).Nodup
      ∧ (∀ x ∈ observedWeeks [⟨1, "signup", 4⟩, ⟨2, "signup", 18⟩]
            GrowthMetric.signups 12 20,
          minWeek [⟨1, "signup", 4⟩, ⟨2, "signup", 18⟩] GrowthMetric.signups 12 20 ≤ x
            ∧ x ≤ maxWeek [⟨1, "signup", 4⟩, ⟨2, "signup", 18⟩] GrowthMetric.signups 12 20)
      ∧ (∀ w : Int,
          minWeek [⟨1, "signup", 4⟩, ⟨2, "signup", 18⟩] GrowthMetric.signups 12 20 ≤ w →
          w ≤ maxWeek [⟨1, "signup", 4⟩, ⟨2, "signup", 18⟩] GrowthMetric.signups 12 20 →
          weekStart w = w →
          ∃ r ∈ compute_weekly_growth [] [⟨1, "signup", 4⟩, ⟨2, "signup", 18⟩]
            GrowthMetric.signups 12 20, r.week_start = w)
      ∧ (∀ r ∈ compute_weekly_growth [] [⟨1, "signup", 4⟩, ⟨2, "signup", 18⟩]
            GrowthMetric.signups 12 20,
          r.week_start ∉ observedWeeks [⟨1, "signup", 4⟩, ⟨2, "signup", 18⟩]
            GrowthMetric.signups 12 20 → r.value = 0)) :=
  ⟨by decide,
   C6_weekly_growth_shape [] [⟨1, "signup", 4⟩, ⟨2, "signup", 18⟩]
     GrowthMetric.signups 12 20 (by decide)⟩

theorem plans_filter_nodup (plans_df : List PlanRow)
    (hp : (plans_df.map (fun p => p.plan_id)).Nodup) (pid : Int) :
    plans_df.filter (fun p => p.plan_id == pid)
      = (plans_df.find? (fun p => p.plan_id == pid)).toList := by
  induction plans_df with
  | nil => rfl
  | cons q qs ih =>
    rw [List.map_cons] at hp
    obtain ⟨hqn, hqs⟩ := List.nodup_cons.mp hp
    rw [List.filter_cons]
    by_cases hq : (q.plan_id == pid) = true
    · have hfind : (q :: qs).find? (fun p => p.plan_id == pid) = some q := by
        simp [List.find?, hq]
      rw [if_pos hq, hfind]
      have hnone : qs.filter (fun p => p.plan_id == pid) = [] := by
        rw [List.filter_eq_nil_iff]
        intro r hr hcon
        apply hqn
        have h1 : r.plan_id = pid := by simpa using hcon
        have h2 : q.plan_id = pid := by simpa using hq
        have h3 : r.plan_id ∈ qs.map (fun p => p.plan_id) :=
          List.mem_map_of_mem (fun p => p.plan_id) hr
        rw [h1, ← h2] at h3
        exact h3
      rw [hnone]
      rfl
    · have hfind : (q :: qs).find? (fun p => p.plan_id == pid)
          = qs.find? (fun p => p.plan_id == pid) := by
        simp [List.find?, hq]
      rw [if_neg hq, hfind]
      exact ih hqs

theorem leftJoinPlans_eq_map (us : List UserRow) (plans_df : List PlanRow)
    (hp : (plans_df.map (fun p => p.plan_id)).Nodup) :
    leftJoinPlans us plans_df = us.map (fun u => (u, userPlan plans_df u)) := by
  induction us with
  | nil => rfl
  | cons u us ih =>
    have hstep : leftJoinPlans (u :: us) plans_df
        = (match plans_df.filter (fun p => p.plan_id == u.plan_id) with
           | [] => [(u, none)]
           | hits => hits.map (fun p => (u, some p))) ++ leftJoinPlans us plans_df := rfl
    rw [hstep, plans_filter_nodup plans_df hp u.plan_id, ih]
    cases hfp : plans_df.find? (fun p => p.plan_id == u.plan_id) with
    | none => simp [userPlan, hfp, Option.toList]
    | some p => simp [userPlan, hfp, Option.toList]

theorem flatMap_paid_replicate (users_df : List UserRow) (events_df : List EventRow) :
    users_df.flatMap (fun u =>
        ((paidEvents events_df).filter (fun ev => ev.user_id == u.user_id)).map (fun _ => u))
      = users_df.flatMap (fun u => List.replicate (paidCountOf events_df u) u) := by
  induction users_df with
  | nil => rfl
  | cons u us ih =>
    simp only [List.flatMap_cons]
    rw [List.map_const', ih]
    rfl

theorem planMerged1_eq (users_df : List UserRow) (events_df : List EventRow) :
    planMerged1 users_df events_df
      = users_df.flatMap (fun u => List.replicate (paidCountOf events_df u) u) := by
  rw [planMerged1]
  exact flatMap_paid_replicate users_df events_df

theorem planJoinRows_eq (users_df : List UserRow) (events_df : List EventRow)
    (plans_df : List PlanRow) (hp : (plans_df.map (fun p => p.plan_id)).Nodup) :
    planJoinRows users_df events_df plans_df
      = users_df.flatMap (fun u =>
          List.replicate (paidCountOf events_df u) (u, userPlan plans_df u)) := by
  rw [planJoinRows, leftJoinPlans_eq_map _ _ hp, planMerged1_eq, List.map_flatMap]
  simp only [List.map_replicate]

theorem filter_replicate {β : Type} (n : Nat) (x : β) (p : β → Bool) :
    (List.replicate n x).filter p = if p x then List.replicate n x else [] := by
  induction n with
  | zero => cases hp : p x <;> simp
  | succ n ih =>
    rw [List.replicate_succ, List.filter_cons]
    by_cases hp : p x = true
    · rw [if_pos hp, if_pos hp, ih, if_pos hp]
    · rw [if_neg hp, if_neg hp, ih, if_neg hp]

theorem filter_flatMap_replicate {β : Type} (l : List UserRow) (F : UserRow → β)
    (k : UserRow → Nat) (p : β → Bool) :
    (l.flatMap (fun u => List.replicate (k u) (F u))).filter p
      = l.flatMap (fun u => if p (F u) then List.replicate (k u) (F u) else []) := by
  induction l with
  | nil => rfl
  | cons u us ih =>
    simp only [List.flatMap_cons, List.filter_append, ih]
    rw [filter_replicate]

theorem filterMap_replicate {β γ : Type} (n : Nat) (x : β) (h : β → Option γ) :
    (List.replicate n x).filterMap h
      = match h x with
        | some y => List.replicate n y
        | none => [] := by
  induction n with
  | zero => cases hx : h x <;> simp
  | succ n ih =>
    rw [List.replicate_succ, List.filterMap_cons]
    cases hx : h x with
    | none =>
      rw [hx] at ih
      simp [hx, ih]
    | some y =>
      rw [hx] at ih
      simp [hx, ih, List.replicate_succ]

theorem sum_prices_flatMap (l : List UserRow) (events_df : List EventRow)
    (plans_df : List PlanRow) (name : String) :
    ((l.flatMap (fun u =>
        if ((userPlan plans_df u).map (fun p => p.plan_name)) == some name
        then List.replicate (paidCountOf events_df u) (u, userPlan plans_df u)
        else [])).filterMap (fun r => r.2.map (fun p => p.price))).sum
      = ((l.filter (fun u =>
          ((userPlan plans_df u).map (fun p => p.plan_name)) == some name)).map
          (fun u => (paidCountOf events_df u : ℚ) * userPlanPrice plans_df u)).sum := by
  induction l with
  | nil => rfl
  | cons u us ih =>
    simp only [List.flatMap_cons, List.filterMap_append, List.sum_append, List.filter_cons]
    by_cases hc : (((userPlan plans_df u).map (fun p => p.plan_name)) == some name) = true
    · rw [if_pos hc, if_pos hc]
      cases hup : userPlan plans_df u with
      | none =>
        rw [hup] at hc
        simp at hc
      | some p =>
        rw [filterMap_replicate]
        rw [List.map_cons, List.sum_cons, ih]
        have hhead : (List.replicate (paidCountOf events_df u) p.price).sum
            = (paidCountOf events_df u : ℚ) * userPlanPrice plans_df u := by
          rw [List.sum_replicate, nsmul_eq_mul]
          simp [userPlanPrice, hup]
        simpa using congrArg (fun z => z + ((us.filter (fun u =>
          ((userPlan plans_df u).map (fun p => p.plan_name)) == some name)).map
          (fun u => (paidCountOf events_df u : ℚ) * userPlanPrice plans_df u)).sum) hhead
    · rw [if_neg hc, if_neg hc]
      simpa using ih

theorem card_users_flatMap (l : List UserRow) (events_df : List EventRow)
    (plans_df : List PlanRow) (name : String) :
    ((l.flatMap (fun u =>
        if ((userPlan plans_df u).map (fun p => p.plan_name)) == some name
        then List.replicate (paidCountOf events_df u) (u, userPlan plans_df u)
        else [])).map (fun r => r.1.user_id)).toFinset
      = ((l.filter (fun u =>
          (((userPlan plans_df u).map (fun p => p.plan_name)) == some name)
            && decide (0 < paidCountOf events_df u))).map (fun u => u.user_id)).toFinset := by
  induction l with
  | nil => rfl
  | cons u us ih =>
    simp only [List.flatMap_cons, List.map_append, List.toFinset_append, ih, List.filter_cons]
    by_cases hc : (((userPlan plans_df u).map (fun p => p.plan_name)) == some name) = true
    · cases hk : paidCountOf events_df u with
      | zero =>
        rw [if_pos hc]
        simp [hc]
      | succ m =>
        rw [if_pos hc]
        simp [hc, List.map_replicate,
          List.toFinset_replicate_of_ne_zero (Nat.succ_ne_zero m), Finset.insert_eq]
    · rw [if_neg hc]
      simp [hc]

-- -----------------------------
-- Claim C5: amended theorem and witness
-- -----------------------------

/-- Claim C5 amended.  Each plan_name group aggregates the rows of the
users×paid-events inner join (NOT deduplicated): `paid_users` is the
distinct-user count of the group, but `mrr` sums the plan price once per
(user, paid event) row, so a user with k paid events contributes k times
their plan price (see the counterexample); stated here per user:  for every
returned row, mrr = sum over matching users of (paid-event count × plan
price), and paid_users = number of distinct matching users with at least
one paid event.  Plan ids are assumed unique (the data model's invariant),
so each user joins at most one plan row. -/
theorem C5_plan_metrics_amended (users_df : List UserRow) (events_df : List EventRow)
    (plans_df : List PlanRow)
    (hp : (plans_df.map (fun p => p.plan_id)).Nodup)
    (row : PlanMetricsRow)
    (hrow : row ∈ compute_plan_metrics users_df events_df plans_df) :
    row.mrr = ((users_df.filter (fun u =>
        ((userPlan plans_df u).map (fun p => p.plan_name)) == some row.plan_name)).map
        (fun u => (paidCountOf events_df u : ℚ) * userPlanPrice plans_df u)).sum
    ∧ row.paid_users = (((users_df.filter (fun u =>
        (((userPlan plans_df u).map (fun p => p.plan_name)) == some row.plan_name)
          && decide (0 < paidCountOf events_df u))).map (fun u => u.user_id)).toFinset).card := by
  rw [compute_plan_metrics] at hrow
  obtain ⟨name, hname, heq⟩ := List.mem_map.mp hrow
  rw [← heq]
  dsimp only
  have hgrp : planGroup users_df events_df plans_df name
      = users_df.flatMap (fun u =>
          if ((userPlan plans_df u).map (fun p => p.plan_name)) == some name
          then List.replicate (paidCountOf events_df u) (u, userPlan plans_df u)
          else []) := by
    rw [planGroup, planJoinRows_eq _ _ _ hp, filter_flatMap_replicate]
  constructor
  · rw [hgrp]
    exact sum_prices_flatMap users_df events_df plans_df name
  · rw [hgrp, ← List.card_toFinset, card_users_flatMap]

/-- Witness for C5: the amended per-user aggregation applied to one user on
plan "Basic" (price 10) with two paid events — mrr 20 = 2 × 10 and
paid_users 1. -/
theorem C5_plan_metrics_witness :
    ((([⟨1, "Basic", 10⟩] : List PlanRow).map (fun p => p.plan_id)).Nodup)
    ∧ (⟨"Basic", 1, 20, some 10⟩ : PlanMetricsRow) ∈
        compute_plan_metrics [⟨1, 0, 1, 1⟩] [⟨1, "paid", 4⟩, ⟨1, "paid", 11⟩]
          [⟨1, "Basic", 10⟩]
    ∧ (⟨"Basic", 1, 20, some 10⟩ : PlanMetricsRow).mrr
        = ((([⟨1, 0, 1, 1⟩] : List UserRow).filter (fun u =>
            ((userPlan [⟨1, "Basic", 10⟩] u).map (fun p => p.plan_name))
              == some (⟨"Basic", 1, 20, some 10⟩ : PlanMetricsRow).plan_name)).map
            (fun u => (paidCountOf [⟨1, "paid", 4⟩, ⟨1, "paid", 11⟩] u : ℚ)
              * userPlanPrice [⟨1, "Basic", 10⟩] u)).sum
    ∧ (⟨"Basic", 1, 20, some 10⟩ : PlanMetricsRow).paid_users
        = (((([⟨1, 0, 1, 1⟩] : List UserRow).filter (fun u =>
            (((userPlan [⟨1, "Basic", 10⟩] u).map (fun p => p.plan_name))
              == some (⟨"Basic", 1, 20, some 10⟩ : PlanMetricsRow).plan_name)
              && decide (0 < paidCountOf [⟨1, "paid", 4⟩, ⟨1, "paid", 11⟩] u))).map
            (fun u => u.user_id)).toFinset).card :=
  ⟨by decide, by decide,
   (C5_plan_metrics_amended [⟨1, 0, 1, 1⟩] [⟨1, "paid", 4⟩, ⟨1, "paid", 11⟩]
      [⟨1, "Basic", 10⟩] (by decide) ⟨"Basic", 1, 20, some 10⟩ (by decide)).1,
   (C5_plan_metrics_amended [⟨1, 0, 1, 1⟩] [⟨1, "paid", 4⟩, ⟨1, "paid", 11⟩]
      [⟨1, "Basic", 10⟩] (by decide) ⟨"Basic", 1, 20, some 10⟩ (by decide)).2⟩
